import Mathlib

/-!
Verification development for the virtualized ticket-list controller of
`zendesk_ticket_viewer/cli_urwid.py` (class `TicketList`).

The embedding is shallow: the mutable `TicketList` object becomes an explicit
state record, the forward-only record generator becomes the list of records it
has yet to yield, and the Python library operations that the code relies on
(`numpy.clip`, list slicing `l[a:b]`, list indexing `l[i]`) are given as total
Lean functions with exactly the Python/numpy semantics, including their
behaviour on negative arguments and inverted bounds.
-/

set_option autoImplicit false

/-- Semantics of `numpy.clip(x, lo, hi)` on integers: equivalent to
`min(hi, max(x, lo))`; in particular when `hi < lo` the result is `hi`. -/
def npClip (x lo hi : Int) : Int := min (max x lo) hi

/-- Normalisation of one bound of a Python slice `l[a:b]` for a list of length
`n`: a negative index counts from the end (clamped below at 0), a nonnegative
index is clamped above at `n`. -/
def pyIdx (n : Nat) (i : Int) : Nat :=
  if i < 0 then ((n : Int) + i).toNat else min i.toNat n

/-- Semantics of the Python slice `l[a:b]` (step 1): both bounds are
normalised with `pyIdx` and the elements from the normalised start (inclusive)
to the normalised stop (exclusive) are returned. -/
def pySlice {α : Type} (l : List α) (a b : Int) : List α :=
  (l.drop (pyIdx l.length a)).take (pyIdx l.length b - pyIdx l.length a)

/-- Semantics of Python list indexing `l[i]`: a negative index counts from the
end; an index out of range raises `IndexError`, modelled as `none`. -/
def pyGet {α : Type} (l : List α) (i : Int) : Option α :=
  if i < 0 then
    if (l.length : Int) + i < 0 then none
    else l.get? ((l.length : Int) + i).toNat
  else l.get? i.toNat

/-- Class attribute `TicketList.header_size`. -/
def header_size : Int := 1

/-- Class attribute `TicketList.footer_size`. -/
def footer_size : Int := 0

/-- Property `TicketList.nonbody_overhead`: rows taken by header and footer. -/
def nonbody_overhead : Int := header_size + footer_size

/-- The state of a `TicketList` object, over an opaque record type `α`:
`offset` and `index_highlighted` are the viewport fields, `ticket_cache` is
`_ticket_cache`, and `ticket_generator` is the list of records the forward-only
generator has yet to yield (empty once the source is exhausted).
`next_calls` instruments the embedding: it counts how many times `next()` has
been invoked on the generator (whether it yielded a record or raised
`StopIteration`); the Python code carries no such counter, and no definition
below branches on it. -/
structure TicketList (α : Type) where
  offset : Int
  index_highlighted : Int
  ticket_cache : List α
  ticket_generator : List α
  next_calls : Nat

/-- The `while True` pull loop inside `TicketList.get_tickets`:
repeatedly, if `prefetch_index < len(cache)` the loop breaks, otherwise
`next(generator)` is invoked — appending the yielded record, or raising
`StopIteration` (caught by the surrounding `try`) when the generator is
exhausted. The recursion is on the generator's remaining records; the break
test is duplicated into both `match` arms so that the recursion is structural,
which does not change the computed values. Returns the final cache, the
remaining generator and the updated `next()` invocation count. -/
def pullLoop {α : Type} (prefetch_index : Int) (cache gen : List α) (n : Nat) :
    List α × List α × Nat :=
  match gen with
  | [] =>
      if prefetch_index < (cache.length : Int) then (cache, [], n)
      else (cache, [], n + 1)
  | r :: rest =>
      if prefetch_index < (cache.length : Int) then (cache, r :: rest, n)
      else pullLoop prefetch_index (cache ++ [r]) rest (n + 1)

/-- `TicketList.get_tickets(offset, limit)`: computes
`prefetch_index = 2 * limit + offset`, runs the pull loop, and returns the
Python slice `_ticket_cache[offset : offset + limit]` together with the
updated state. -/
def get_tickets {α : Type} (t : TicketList α) (offset limit : Int) :
    List α × TicketList α :=
  let prefetch_index := 2 * limit + offset
  let res := pullLoop prefetch_index t.ticket_cache t.ticket_generator t.next_calls
  (pySlice res.1 offset (offset + limit),
   { t with ticket_cache := res.1, ticket_generator := res.2.1, next_calls := res.2.2 })

/-- The list of visible tickets computed at the top of
`TicketList.refresh_widgets(size)`: `get_tickets(self.offset,
maxcol - self.nonbody_overhead)` where `maxcol` is the second component of
`size`. -/
def visible_tickets {α : Type} (t : TicketList α) (maxcol : Int) : List α :=
  (get_tickets t t.offset (maxcol - nonbody_overhead)).1

/-- The local variable `index_highlighted` computed inside
`TicketList.refresh_widgets`: `numpy.clip(self.index_highlighted, 0,
min(maxcol - self.nonbody_overhead, len(visible_tickets)) - 1)`. It is a
local value only — it is never written back to the object. -/
def refresh_index_highlighted {α : Type} (t : TicketList α) (maxcol : Int) : Int :=
  npClip t.index_highlighted 0
    (min (maxcol - nonbody_overhead) ((visible_tickets t maxcol).length : Int) - 1)

/-- State effect of `TicketList.refresh_widgets(size)`: the only fields it
writes are those updated through `get_tickets` (the cache, the generator and
the instrumented pull count); the widget construction below that call touches
no controller state. -/
def refresh_widgets {α : Type} (t : TicketList α) (maxcol : Int) : TicketList α :=
  (get_tickets t t.offset (maxcol - nonbody_overhead)).2

/-- `TicketList.scroll(size, movement)`:
`can_move_to = numpy.clip(index_highlighted + movement, 0,
maxcol - nonbody_overhead - 1)`; the unconsumed movement moves the offset,
which is clipped by `numpy.clip(offset + movement, 0, len(_ticket_cache) - 1)`;
finally `refresh_widgets(size)` runs. -/
def scroll {α : Type} (t : TicketList α) (maxcol movement : Int) : TicketList α :=
  let can_move_to := npClip (t.index_highlighted + movement) 0 (maxcol - nonbody_overhead - 1)
  let movement2 := movement - (can_move_to - t.index_highlighted)
  let t1 : TicketList α := { t with index_highlighted := can_move_to }
  let t2 : TicketList α :=
    { t1 with offset := npClip (t1.offset + movement2) 0 ((t1.ticket_cache.length : Int) - 1) }
  refresh_widgets t2 maxcol

/-- `TicketList._action_open`: evaluates
`self._ticket_cache[self.offset + self.index_highlighted]` with Python
indexing semantics (`none` models the `IndexError` raised on an out-of-range
position) and otherwise only logs; the controller state is never written. -/
def action_open {α : Type} (t : TicketList α) : Option α :=
  pyGet t.ticket_cache (t.offset + t.index_highlighted)

/-- The offset value that claim C1's formula predicts for `scroll`: it clips
against `max(cached_count - 1, 0)` where `cached_count` is the cache size
after the whole call (spec wording), rather than against
`len(_ticket_cache) - 1` taken before the refresh as the code does. -/
def specC1_offset {α : Type} (t : TicketList α) (maxcol movement : Int) : Int :=
  npClip
    (t.offset +
      (movement -
        (npClip (t.index_highlighted + movement) 0 (maxcol - nonbody_overhead - 1)
          - t.index_highlighted)))
    0 (max (((scroll t maxcol movement).ticket_cache.length : Int) - 1) 0)

/-- Claim C1 as stated: after `scroll`, the highlight equals the clipped
target and the offset equals `specC1_offset`. -/
def scrollSpecC1 {α : Type} (t : TicketList α) (maxcol movement : Int) : Prop :=
  (scroll t maxcol movement).index_highlighted
      = npClip (t.index_highlighted + movement) 0 (maxcol - nonbody_overhead - 1) ∧
  (scroll t maxcol movement).offset = specC1_offset t maxcol movement

/-- Claim C2 as stated: after `scroll`, the highlight is within
`[0, visible_capacity - 1]` whenever the capacity is positive, and the offset
is within `[0, max(cached_count - 1, 0)]` unconditionally. -/
def scrollSpecC2 {α : Type} (t : TicketList α) (maxcol movement : Int) : Prop :=
  (0 < maxcol - nonbody_overhead →
    0 ≤ (scroll t maxcol movement).index_highlighted ∧
    (scroll t maxcol movement).index_highlighted ≤ maxcol - nonbody_overhead - 1) ∧
  (0 ≤ (scroll t maxcol movement).offset ∧
    (scroll t maxcol movement).offset
      ≤ max (((scroll t maxcol movement).ticket_cache.length : Int) - 1) 0)

/-- Claim C6 as stated, for a source already exhausted after delivering
exactly `cached_count` records: a fetch at `offset ≥ cached_count` returns the
empty slice, and a fetch at `offset < cached_count` returns exactly
`min(limit, cached_count - offset)` records. -/
def fetchSpecC6 {α : Type} (t : TicketList α) (offset limit : Int) : Prop :=
  ((t.ticket_cache.length : Int) ≤ offset → (get_tickets t offset limit).1 = []) ∧
  (offset < (t.ticket_cache.length : Int) →
    ((get_tickets t offset limit).1.length : Int)
      = min limit ((t.ticket_cache.length : Int) - offset))

/-- Closed form for the highlight written by `scroll`: the refresh step does
not touch it. -/
theorem scroll_index_eq {α : Type} (t : TicketList α) (maxcol movement : Int) :
    (scroll t maxcol movement).index_highlighted
      = npClip (t.index_highlighted + movement) 0 (maxcol - nonbody_overhead - 1) := rfl

/-- Closed form for the offset written by `scroll`: the clip bound uses the
cache length at entry (the refresh step runs only afterwards). -/
theorem scroll_offset_eq {α : Type} (t : TicketList α) (maxcol movement : Int) :
    (scroll t maxcol movement).offset
      = npClip
          (t.offset +
            (movement -
              (npClip (t.index_highlighted + movement) 0 (maxcol - nonbody_overhead - 1)
                - t.index_highlighted)))
          0 ((t.ticket_cache.length : Int) - 1) := rfl

theorem npClip_of_le {x lo hi : Int} (h1 : lo ≤ x) (h2 : x ≤ hi) : npClip x lo hi = x := by
  unfold npClip; omega

theorem npClip_idem (x lo hi : Int) : npClip (npClip x lo hi) lo hi = npClip x lo hi := by
  unfold npClip; omega

theorem npClip_bounds {x lo hi : Int} (h : lo ≤ hi) :
    lo ≤ npClip x lo hi ∧ npClip x lo hi ≤ hi := by
  unfold npClip; omega

/-- The pull loop only appends to the cache, so its length never decreases. -/
theorem pullLoop_cache_len_mono {α : Type} (p : Int) (gen : List α) :
    ∀ (cache : List α) (n : Nat), cache.length ≤ (pullLoop p cache gen n).1.length := by
  induction gen with
  | nil =>
      intro cache n
      simp only [pullLoop]
      split <;> exact Nat.le_refl _
  | cons r rest ih =>
      intro cache n
      simp only [pullLoop]
      split
      · exact Nat.le_refl _
      · exact Nat.le_trans (by simp) (ih (cache ++ [r]) (n + 1))

/-- The pull loop runs until the cache length exceeds the prefetch index or
every record of the source has been delivered. -/
theorem pullLoop_length_ge {α : Type} (p : Int) (gen : List α) :
    ∀ (cache : List α) (n : Nat),
      min (p + 1) ((cache.length + gen.length : Nat) : Int)
        ≤ ((pullLoop p cache gen n).1.length : Int) := by
  induction gen with
  | nil =>
      intro cache n
      simp only [pullLoop]
      split <;> simp only [List.length_nil, Nat.add_zero] <;> omega
  | cons r rest ih =>
      intro cache n
      simp only [pullLoop]
      split
      · simp only [List.length_cons]
        omega
      · have h := ih (cache ++ [r]) (n + 1)
        simp only [List.length_append, List.length_singleton, List.length_cons] at h ⊢
        omega

/-- Once the generator is exhausted, a fetch returns exactly the Python slice
of the unchanged cache. -/
theorem get_tickets_fst_of_exhausted {α : Type} (t : TicketList α) (offset limit : Int)
    (h : t.ticket_generator = []) :
    (get_tickets t offset limit).1 = pySlice t.ticket_cache offset (offset + limit) := by
  unfold get_tickets
  rw [h]
  unfold pullLoop
  dsimp only
  split <;> rfl

/-- The cache length never decreases across a `scroll` call. -/
theorem scroll_cache_len_mono {α : Type} (t : TicketList α) (maxcol movement : Int) :
    t.ticket_cache.length ≤ (scroll t maxcol movement).ticket_cache.length :=
  pullLoop_cache_len_mono _ _ _ _

/-- The cache length never decreases across a `refresh_widgets` call. -/
theorem refresh_cache_len_mono {α : Type} (t : TicketList α) (maxcol : Int) :
    t.ticket_cache.length ≤ (refresh_widgets t maxcol).ticket_cache.length :=
  pullLoop_cache_len_mono _ _ _ _

/-- Length of a Python slice with nonnegative bounds. -/
theorem pySlice_length_of_nonneg {α : Type} (l : List α) (a b : Int)
    (ha : 0 ≤ a) (hb : 0 ≤ b) :
    (pySlice l a b).length = min b.toNat l.length - min a.toNat l.length := by
  simp only [pySlice, pyIdx, if_neg (not_lt.mpr ha), if_neg (not_lt.mpr hb),
    List.length_take, List.length_drop]
  omega

/-- A Python slice starting at or beyond the end of the list is empty. -/
theorem pySlice_eq_nil_of_ge {α : Type} (l : List α) (a b : Int)
    (ha : 0 ≤ a) (hlen : (l.length : Int) ≤ a) :
    pySlice l a b = [] := by
  have hidx : pyIdx l.length a = l.length := by
    simp only [pyIdx, if_neg (not_lt.mpr ha)]
    omega
  simp [pySlice, hidx]

/-- C1: the claim's formula for `scroll` fails on the empty cache: with no
cached tickets and no source records, at `maxcol = 2` and `movement = 0` the
code sets `offset = numpy.clip(0, 0, -1) = -1`, while the claim's
`clip(offset + remainder, 0, max(cached_count - 1, 0))` gives `0`. -/
theorem C1_counterexample :
    ¬ scrollSpecC1 (⟨0, 0, [], [], 0⟩ : TicketList Nat) 2 0 := by
  unfold scrollSpecC1
  decide

/-- C1 (amended): after `TicketList.scroll(size, movement)` with
`maxcol` the second component of `size`,
`index_highlighted = clip(index_highlighted + movement, 0,
visible_capacity - 1)` and, with `consumed` the highlight change and
`remainder = movement - consumed`,
`offset = clip(offset + remainder, 0, cached_count_pre - 1)` where
`cached_count_pre` is the number of cached records at entry (the refresh step
afterwards may grow the cache); in particular with an empty cache the upper
clip bound is `-1` and the offset becomes `-1`. -/
theorem C1_amended {α : Type} (t : TicketList α) (maxcol movement : Int) :
    (scroll t maxcol movement).index_highlighted
        = npClip (t.index_highlighted + movement) 0 (maxcol - nonbody_overhead - 1) ∧
    (scroll t maxcol movement).offset
        = npClip
            (t.offset +
              (movement -
                (npClip (t.index_highlighted + movement) 0 (maxcol - nonbody_overhead - 1)
                  - t.index_highlighted)))
            0 ((t.ticket_cache.length : Int) - 1) :=
  ⟨scroll_index_eq t maxcol movement, scroll_offset_eq t maxcol movement⟩

/-- C2: the claimed offset invariant fails on the empty cache: with no cached
tickets and no source records, at `maxcol = 2` and `movement = 0` the code
leaves `offset = -1 < 0`. -/
theorem C2_counterexample :
    ¬ scrollSpecC2 (⟨0, 0, [], [], 0⟩ : TicketList Nat) 2 0 := by
  unfold scrollSpecC2
  decide

/-- C2 (amended): after `scroll`, `0 ≤ index_highlighted ≤
visible_capacity - 1` whenever `visible_capacity > 0`; and whenever the cache
is nonempty at entry, `0 ≤ offset ≤ max(cached_count - 1, 0)` with
`cached_count` the cache size after the call (when the cache is empty at
entry the offset instead becomes `-1`). -/
theorem C2_amended {α : Type} (t : TicketList α) (maxcol movement : Int) :
    (0 < maxcol - nonbody_overhead →
      0 ≤ (scroll t maxcol movement).index_highlighted ∧
      (scroll t maxcol movement).index_highlighted ≤ maxcol - nonbody_overhead - 1) ∧
    (t.ticket_cache ≠ [] →
      0 ≤ (scroll t maxcol movement).offset ∧
      (scroll t maxcol movement).offset
        ≤ max (((scroll t maxcol movement).ticket_cache.length : Int) - 1) 0) := by
  constructor
  · intro hcap
    rw [scroll_index_eq]
    exact npClip_bounds (by omega)
  · intro hne
    have hlen : 1 ≤ t.ticket_cache.length := List.length_pos.mpr hne
    have hmono := scroll_cache_len_mono t maxcol movement
    have hb := @npClip_bounds
      (t.offset +
        (movement -
          (npClip (t.index_highlighted + movement) 0 (maxcol - nonbody_overhead - 1)
            - t.index_highlighted)))
      0 ((t.ticket_cache.length : Int) - 1) (by omega)
    rw [scroll_offset_eq]
    omega

/-- C2 witness: on a concrete nonempty cache the amended offset bounds hold. -/
theorem C2_amended_witness :
    0 ≤ (scroll (⟨0, 0, [1, 2, 3], [], 0⟩ : TicketList Nat) 5 3).offset :=
  ((C2_amended (⟨0, 0, [1, 2, 3], [], 0⟩ : TicketList Nat) 5 3).2 (by decide)).1

/-- C3: the claim fails for a strictly negative capacity: at `maxcol = 0`
(capacity `-1`) with two cached tickets and `offset = 0`, the Python slice
`_ticket_cache[0:-1]` is `[first ticket]`, so `refresh_widgets` produces one
visible row, not zero. -/
theorem C3_counterexample :
    (0 : Int) - nonbody_overhead ≤ 0 ∧
    visible_tickets (⟨0, 0, [1, 2], [], 0⟩ : TicketList Nat) 0 = [1] := by decide

/-- C3 (amended): when `visible_capacity = 0` (i.e. `maxcol =
nonbody_overhead`), producing the visible rows yields zero rows and raises no
error (all functions involved are total); for strictly negative capacity the
call still raises no error, but the Python slice `cache[offset:offset+limit]`
with a negative stop can be nonempty. -/
theorem C3_amended {α : Type} (t : TicketList α) (maxcol : Int)
    (h : maxcol - nonbody_overhead = 0) :
    visible_tickets t maxcol = [] := by
  unfold visible_tickets get_tickets
  rw [h]
  simp [pySlice]

/-- C3 witness: at `maxcol = 1` (capacity 0) a concrete state with cached and
pending tickets yields zero visible rows. -/
theorem C3_amended_witness :
    visible_tickets (⟨0, 0, [5, 6], [7], 0⟩ : TicketList Nat) 1 = [] :=
  C3_amended (⟨0, 0, [5, 6], [7], 0⟩ : TicketList Nat) 1 (by decide)

/-- C4: the code, not the claim, is at fault. With an empty cache and
`offset = 0`, `index_highlighted = 0`, `TicketList._action_open` evaluates
`self._ticket_cache[0]` on the empty list, which raises `IndexError`
(modelled by `pyGet` returning `none`), contradicting the documented
requirement that the action no-op safely. -/
theorem C4_code_errors :
    action_open (⟨0, 0, [], [], 0⟩ : TicketList Nat) = none := by decide

/-- C5: the claim's no-further-pulls part fails: the code keeps no exhaustion
flag, so a fetch whose prefetch target exceeds the cache always invokes
`next()` on the generator again. Starting from an empty cache over an empty
source, the first `get_tickets(0, 1)` observes `StopIteration` (the
instrumented `next()` count rises to 1) and a second identical call invokes
`next()` once more (count 2). -/
theorem C5_counterexample :
    (get_tickets (⟨0, 0, [], [], 0⟩ : TicketList Nat) 0 1).2.next_calls = 1 ∧
    (get_tickets ((get_tickets (⟨0, 0, [], [], 0⟩ : TicketList Nat) 0 1).2) 0 1).2.next_calls
      = 2 := by decide

/-- C5 (amended): once the source is exhausted, every subsequent fetch leaves
the cache unchanged, keeps the source exhausted, returns exactly the cached
records clipped to the requested Python slice, and invokes `next()` at most
once more per fetch (that call immediately re-raises `StopIteration` and
delivers nothing). -/
theorem C5_amended {α : Type} (t : TicketList α) (offset limit : Int)
    (h : t.ticket_generator = []) :
    (get_tickets t offset limit).1 = pySlice t.ticket_cache offset (offset + limit) ∧
    (get_tickets t offset limit).2.ticket_cache = t.ticket_cache ∧
    (get_tickets t offset limit).2.ticket_generator = [] ∧
    (get_tickets t offset limit).2.next_calls ≤ t.next_calls + 1 := by
  unfold get_tickets
  rw [h]
  unfold pullLoop
  dsimp only
  split
  · exact ⟨rfl, rfl, rfl, Nat.le_succ _⟩
  · exact ⟨rfl, rfl, rfl, Nat.le_refl _⟩

/-- C5 witness: the amended claim at a concrete exhausted state. -/
theorem C5_amended_witness :
    (get_tickets (⟨0, 0, [10, 20], [], 3⟩ : TicketList Nat) 0 1).1
        = pySlice (⟨0, 0, [10, 20], [], 3⟩ : TicketList Nat).ticket_cache 0 (0 + 1) ∧
    (get_tickets (⟨0, 0, [10, 20], [], 3⟩ : TicketList Nat) 0 1).2.ticket_cache
        = (⟨0, 0, [10, 20], [], 3⟩ : TicketList Nat).ticket_cache ∧
    (get_tickets (⟨0, 0, [10, 20], [], 3⟩ : TicketList Nat) 0 1).2.ticket_generator = [] ∧
    (get_tickets (⟨0, 0, [10, 20], [], 3⟩ : TicketList Nat) 0 1).2.next_calls
        ≤ (⟨0, 0, [10, 20], [], 3⟩ : TicketList Nat).next_calls + 1 :=
  C5_amended (⟨0, 0, [10, 20], [], 3⟩ : TicketList Nat) 0 1 rfl

/-- C6: the claim fails for a negative offset: with a source exhausted after
two records, `fetch(-1, 1)` evaluates the Python slice `cache[-1:0] = []`,
while the claim (for `offset = -1 < N = 2`) demands `min(1, 3) = 1` record. -/
theorem C6_counterexample :
    ¬ fetchSpecC6 (⟨0, 0, [10, 20], [], 0⟩ : TicketList Nat) (-1) 1 := by
  unfold fetchSpecC6
  decide

/-- C6 (amended): for a source exhausted after delivering exactly `N` records
and every `offset ≥ 0` and `limit ≥ 0`, `fetch(offset, limit)` returns the
empty sequence when `offset ≥ N` and exactly `min(limit, N - offset)` records
when `offset < N`, never erring (for negative offsets Python's
count-from-the-end slice semantics break the claimed count). -/
theorem C6_amended {α : Type} (t : TicketList α) (offset limit : Int)
    (hgen : t.ticket_generator = []) (hoff : 0 ≤ offset) (hlim : 0 ≤ limit) :
    ((t.ticket_cache.length : Int) ≤ offset → (get_tickets t offset limit).1 = []) ∧
    (offset < (t.ticket_cache.length : Int) →
      ((get_tickets t offset limit).1.length : Int)
        = min limit ((t.ticket_cache.length : Int) - offset)) := by
  rw [get_tickets_fst_of_exhausted t offset limit hgen]
  constructor
  · intro hN
    exact pySlice_eq_nil_of_ge _ _ _ hoff hN
  · intro hN
    rw [pySlice_length_of_nonneg _ _ _ hoff (by omega)]
    omega

/-- C6 witness: the amended short-read count at a concrete exhausted state. -/
theorem C6_amended_witness :
    ((get_tickets (⟨0, 0, [10, 20, 30], [], 0⟩ : TicketList Nat) 1 5).1.length : Int)
      = min 5 (((⟨0, 0, [10, 20, 30], [], 0⟩ : TicketList Nat).ticket_cache.length : Int) - 1) :=
  (C6_amended (⟨0, 0, [10, 20, 30], [], 0⟩ : TicketList Nat) 1 5 rfl (by decide)
    (by decide)).2 (by decide)

/-- C7: after `fetch(offset, limit)` with `limit ≥ 0`, the cache holds at
least `min(offset + 2 * limit, total_available)` records, where
`total_available` is everything the source can ever deliver (already cached
records plus the generator's remaining ones). -/
theorem C7_prefetch_bound {α : Type} (t : TicketList α) (offset limit : Int)
    (hlim : 0 ≤ limit) :
    min (offset + 2 * limit)
        ((t.ticket_cache.length + t.ticket_generator.length : Nat) : Int)
      ≤ ((get_tickets t offset limit).2.ticket_cache.length : Int) := by
  have h := pullLoop_length_ge (2 * limit + offset) t.ticket_generator
    t.ticket_cache t.next_calls
  have heq : (get_tickets t offset limit).2.ticket_cache
      = (pullLoop (2 * limit + offset) t.ticket_cache t.ticket_generator t.next_calls).1 := rfl
  rw [heq]
  omega

/-- C7 witness: the prefetch bound at a concrete state with a live source. -/
theorem C7_prefetch_bound_witness :
    min ((0 : Int) + 2 * 1)
        (((⟨0, 0, [], [1, 2, 3], 0⟩ : TicketList Nat).ticket_cache.length
          + (⟨0, 0, [], [1, 2, 3], 0⟩ : TicketList Nat).ticket_generator.length : Nat) : Int)
      ≤ ((get_tickets (⟨0, 0, [], [1, 2, 3], 0⟩ : TicketList Nat) 0 1).2.ticket_cache.length : Int) :=
  C7_prefetch_bound (⟨0, 0, [], [1, 2, 3], 0⟩ : TicketList Nat) 0 1 (by decide)

/-- C8: when neither leg of the round trip hits a clipping boundary (the
highlight stays within `[0, visible_capacity - 1]`, the offset within
`[0, cached_count - 1]`, same height both times), `scroll` by `d` then by
`-d` restores the offset and the highlight. -/
theorem C8_movement_conservation {α : Type} (t : TicketList α) (maxcol d : Int)
    (h1 : 0 ≤ t.index_highlighted)
    (h2 : t.index_highlighted ≤ maxcol - nonbody_overhead - 1)
    (h3 : 0 ≤ t.index_highlighted + d)
    (h4 : t.index_highlighted + d ≤ maxcol - nonbody_overhead - 1)
    (h5 : 0 ≤ t.offset)
    (h6 : t.offset ≤ (t.ticket_cache.length : Int) - 1) :
    (scroll (scroll t maxcol d) maxcol (-d)).offset = t.offset ∧
    (scroll (scroll t maxcol d) maxcol (-d)).index_highlighted = t.index_highlighted := by
  have e1 : (scroll t maxcol d).index_highlighted = t.index_highlighted + d := by
    rw [scroll_index_eq]
    exact npClip_of_le h3 h4
  have e2 : (scroll t maxcol d).offset = t.offset := by
    rw [scroll_offset_eq, npClip_of_le h3 h4]
    have e : t.offset + (d - (t.index_highlighted + d - t.index_highlighted)) = t.offset := by
      ring
    rw [e]
    exact npClip_of_le h5 h6
  have hm : (t.ticket_cache.length : Int)
      ≤ ((scroll t maxcol d).ticket_cache.length : Int) := by
    exact_mod_cast scroll_cache_len_mono t maxcol d
  constructor
  · rw [scroll_offset_eq, e1, e2]
    have e3 : t.index_highlighted + d + -d = t.index_highlighted := by ring
    rw [e3, npClip_of_le h1 h2]
    have e4 : t.offset + (-d - (t.index_highlighted - (t.index_highlighted + d)))
        = t.offset := by ring
    rw [e4]
    exact npClip_of_le h5 (by omega)
  · rw [scroll_index_eq, e1]
    have e3 : t.index_highlighted + d + -d = t.index_highlighted := by ring
    rw [e3]
    exact npClip_of_le h1 h2

/-- C8 witness: the round trip at a concrete in-bounds state. -/
theorem C8_movement_conservation_witness :
    (scroll (scroll (⟨0, 0, [1, 2, 3, 4, 5], [], 0⟩ : TicketList Nat) 5 2) 5 (-2)).offset
        = (⟨0, 0, [1, 2, 3, 4, 5], [], 0⟩ : TicketList Nat).offset ∧
    (scroll (scroll (⟨0, 0, [1, 2, 3, 4, 5], [], 0⟩ : TicketList Nat) 5 2) 5 (-2)).index_highlighted
        = (⟨0, 0, [1, 2, 3, 4, 5], [], 0⟩ : TicketList Nat).index_highlighted :=
  C8_movement_conservation (⟨0, 0, [1, 2, 3, 4, 5], [], 0⟩ : TicketList Nat) 5 2
    (by decide) (by decide) (by decide) (by decide) (by decide) (by decide)

/-- C9: `refresh_widgets` never writes the viewport fields: for every state
and every size, the stored `offset` and `index_highlighted` are identical
before and after the call (the defensive re-clamp is a local value only; only
the cache side of the state can change, through `get_tickets`). -/
theorem C9_refresh_frame {α : Type} (t : TicketList α) (maxcol : Int) :
    (refresh_widgets t maxcol).offset = t.offset ∧
    (refresh_widgets t maxcol).index_highlighted = t.index_highlighted :=
  ⟨rfl, rfl⟩

/-- C10: the re-clamp is not idempotent in general: from an empty cache over
a one-record source at `maxcol = 2`, the first `scroll(size, 0)` clips the
offset to `-1` (upper bound `len(cache) - 1 = -1`) and then prefetches the
record, so the second `scroll(size, 0)` clips the offset to `0 ≠ -1`. -/
theorem C10_counterexample :
    (scroll (scroll (⟨0, 0, [], [9], 0⟩ : TicketList Nat) 2 0) 2 0).offset
      ≠ (scroll (⟨0, 0, [], [9], 0⟩ : TicketList Nat) 2 0).offset := by decide

/-- C10 (amended): for every state whose cache is nonempty at the start (and
every size), applying `scroll` with movement 0 twice yields the same
`(offset, index_highlighted)` pair as applying it once. -/
theorem C10_amended {α : Type} (t : TicketList α) (maxcol : Int)
    (h : t.ticket_cache ≠ []) :
    (scroll (scroll t maxcol 0) maxcol 0).offset = (scroll t maxcol 0).offset ∧
    (scroll (scroll t maxcol 0) maxcol 0).index_highlighted
      = (scroll t maxcol 0).index_highlighted := by
  have hlen : 1 ≤ t.ticket_cache.length := List.length_pos.mpr h
  have ehi : (scroll (scroll t maxcol 0) maxcol 0).index_highlighted
      = (scroll t maxcol 0).index_highlighted := by
    rw [scroll_index_eq, scroll_index_eq]
    simp only [add_zero]
    exact npClip_idem _ _ _
  refine ⟨?_, ehi⟩
  rw [scroll_offset_eq]
  have hA : npClip ((scroll t maxcol 0).index_highlighted + 0)
      0 (maxcol - nonbody_overhead - 1) = (scroll t maxcol 0).index_highlighted := by
    rw [add_zero, scroll_index_eq, add_zero]
    exact npClip_idem _ _ _
  rw [hA]
  have hb : 0 ≤ (scroll t maxcol 0).offset ∧
      (scroll t maxcol 0).offset ≤ (t.ticket_cache.length : Int) - 1 := by
    rw [scroll_offset_eq]
    exact npClip_bounds (by omega)
  have hm : (t.ticket_cache.length : Int)
      ≤ ((scroll t maxcol 0).ticket_cache.length : Int) := by
    exact_mod_cast scroll_cache_len_mono t maxcol 0
  have e : (scroll t maxcol 0).offset
      + (0 - ((scroll t maxcol 0).index_highlighted
          - (scroll t maxcol 0).index_highlighted))
      = (scroll t maxcol 0).offset := by ring
  rw [e]
  exact npClip_of_le hb.1 (by omega)

/-- C10 witness: idempotence at a concrete state with a nonempty cache and an
initially out-of-bounds highlight. -/
theorem C10_amended_witness :
    (scroll (scroll (⟨0, 5, [1, 2], [], 0⟩ : TicketList Nat) 4 0) 4 0).offset
      = (scroll (⟨0, 5, [1, 2], [], 0⟩ : TicketList Nat) 4 0).offset ∧
    (scroll (scroll (⟨0, 5, [1, 2], [], 0⟩ : TicketList Nat) 4 0) 4 0).index_highlighted
      = (scroll (⟨0, 5, [1, 2], [], 0⟩ : TicketList Nat) 4 0).index_highlighted :=
  C10_amended (⟨0, 5, [1, 2], [], 0⟩ : TicketList Nat) 4 (by decide)

example : npClip 5 0 3 = 3 := by decide
